import Mathlib

/-!
Verification of the SQLite normalization/migration pipeline of
`sqlite3_Design_&_creating_DB.py` (MLB game-log database project).

The script loads four CSV files into SQLite tables (`game_log`,
`person_codes`, `park_codes`, `team_codes`), adds a derived `game_id`
column to `game_log`, creates eight normalized tables and populates them
with set-based `INSERT ... SELECT` statements, and finally drops the four
raw tables.

This file shallowly embeds the data model and every SQL statement the
script executes.  Tables are lists of row structures; a missing table is
`none`.  SQL `NULL` is `Option.none`; SQL three-valued comparisons on
possibly-NULL values are embedded so that a comparison involving `NULL`
is not satisfied.  `INSERT OR IGNORE` is insertion that skips a row whose
primary-key value is already present; `UNION` is set-semantics
concatenation (duplicate result rows eliminated).  Row order inside a
table and the concrete order `UNION` leaves rows in affect only the
surrogate `appearance_id` values (modeled positionally) and no claim
below; a deterministic order is used.

The embedding has two layers.  The result-set layer (`migrate`,
`finalPA`, `insertOrIgnore`, ...) gives each statement's computed rows,
i.e. what is persisted whenever every computed value satisfies the
enabled foreign keys; statements whose behavior does not depend on
enforcement are stated against it.  The enforcement layer (`migrateE`,
`finalPAE`, `insertOrIgnoreE`, ...) additionally models
`PRAGMA foreign_keys = ON`, which `run_command` sets on every statement
it runs: an `INSERT` whose row carries a non-NULL foreign-key value
absent from the parent table aborts atomically (`OR IGNORE` does not
cover foreign keys; a NULL value always passes), a `DROP TABLE` of a
parent whose rows are referenced by an existing child row fails, and the
script, having no handler there, halts.  The raw-table loader and the
`appearance_type.csv` append use plain connections without the pragma.
On a halt the partially migrated store is not examined by any claim, so
the enforcement layer returns only the error.

The `game_log` columns not read by any statement (player names,
day-of-week, debut dates, ...) are outside the model.  Columns that are
present in every source row and are read as key material (`date`,
`number_of_game`, `h_name`, `v_name`) are embedded as non-optional.
-/

/-- The 30 per-team statistic columns of `game_log` that the
`team_appearance` insert copies verbatim: the `h_*` and the `v_*` column
family have the same shape, embedded once. -/
structure TeamStats where
  score : Option Int
  line_score : Option String
  at_bats : Option Int
  hits : Option Int
  doubles : Option Int
  triples : Option Int
  homeruns : Option Int
  rbi : Option Int
  sacrifice_hits : Option Int
  sacrifice_flies : Option Int
  hit_by_pitch : Option Int
  walks : Option Int
  intentional_walks : Option Int
  strikeouts : Option Int
  stolen_bases : Option Int
  caught_stealing : Option Int
  grounded_into_double : Option Int
  first_catcher_interference : Option Int
  left_on_base : Option Int
  pitchers_used : Option Int
  individual_earned_runs : Option Int
  team_earned_runs : Option Int
  wild_pitches : Option Int
  balks : Option Int
  putouts : Option Int
  assists : Option Int
  errors : Option Int
  passed_balls : Option Int
  double_plays : Option Int
  triple_plays : Option Int
  deriving DecidableEq, Repr

/-- One batting-order slot of one side: the `{hv}_player_{num}_id` and
`{hv}_player_{num}_def_pos` column pair of `game_log`. -/
structure Slot where
  pid : Option String
  def_pos : Option Int
  deriving DecidableEq, Repr

/-- A `game_log` row, restricted to the columns some SQL statement of the
script reads.  The nine `{hv}_player_{num}_*` column pairs of each side
are embedded as a nine-element list (index `num - 1`).  `game_id` is the
column added by `ALTER TABLE`; while the column does not exist the field
is `none` by construction (see `GameLogTable.hasGameId`). -/
structure GameLogRow where
  date : Nat
  number_of_game : Nat
  day_night : Option String
  v_name : String
  v_league : Option String
  h_name : String
  h_league : Option String
  park_id : Option String
  length_outs : Option Int
  completion : Option String
  forefeit : Option String
  protest : Option String
  attendance : Option Int
  length_minutes : Option Int
  additional_info : Option String
  acquisition_info : Option String
  h_stats : TeamStats
  v_stats : TeamStats
  hp_umpire_id : Option String
  b1_umpire_id : Option String
  b2_umpire_id : Option String
  b3_umpire_id : Option String
  lf_umpire_id : Option String
  rf_umpire_id : Option String
  v_manager_id : Option String
  h_manager_id : Option String
  winning_pitcher_id : Option String
  losing_pitcher_id : Option String
  saving_pitcher_id : Option String
  winning_rbi_batter_id : Option String
  v_starting_pitcher_id : Option String
  h_starting_pitcher_id : Option String
  h_players : List Slot
  v_players : List Slot
  game_id : Option String
  deriving DecidableEq, Repr

/-- The `game_log` table together with a flag recording whether the
`game_id` column has been added by `ALTER TABLE` yet.  The loader writes
the CSV columns only, so whenever `hasGameId = false` every row's
`game_id` field is `none`; `ALTER TABLE ... ADD COLUMN` fills the new
column with `NULL`, which is the value the field already holds. -/
structure GameLogTable where
  hasGameId : Bool
  rows : List GameLogRow
  deriving DecidableEq, Repr

/-- SQL `a > b` on two possibly-NULL integers: `NULL` compares unknown,
so the `CASE WHEN` branch is not taken. -/
def sqlGt : Option Int → Option Int → Bool
  | some a, some b => decide (b < a)
  | _, _ => false

/-- SQL `a < b` on two possibly-NULL integers. -/
def sqlLt : Option Int → Option Int → Bool
  | some a, some b => decide (a < b)
  | _, _ => false

/-- Embedding of statement `c2` of cell 15:
`UPDATE game_log SET game_id = date || h_name || number_of_game WHERE
game_id IS NULL`, restricted to one row.  SQLite `||` renders the two
integer operands as their decimal text. -/
def updateRow (r : GameLogRow) : GameLogRow :=
  if r.game_id = none then
    { r with game_id := some (toString r.date ++ r.h_name ++ toString r.number_of_game) }
  else r

/-- The `UPDATE` applied to the whole `game_log` table. -/
def updateGameId (rows : List GameLogRow) : List GameLogRow :=
  rows.map updateRow

/-- Errors an SQLite statement of this script can raise that the claims
distinguish: the "duplicate column name" failure of
`ALTER TABLE ... ADD COLUMN`, the "no such table" failure, the
"FOREIGN KEY constraint failed" failure raised under
`PRAGMA foreign_keys = ON`, and failures of any other kind (malformed
statement, ...). -/
inductive SqlError where
  | duplicateColumn
  | noSuchTable
  | fkViolation
  | otherError
  deriving DecidableEq, Repr

/-- Embedding of statement `c1` of cell 15:
`ALTER TABLE game_log ADD COLUMN game_id TEXT`.  Fails with
"no such table" when `game_log` does not exist and with
"duplicate column name" when the column was already added; otherwise it
adds the column (whose value is `NULL` in every existing row). -/
def alterAddGameId : Option GameLogTable → Except SqlError GameLogTable
  | none => .error .noSuchTable
  | some t =>
    if t.hasGameId then .error .duplicateColumn
    else .ok { t with hasGameId := true }

/-- Embedding of the `try: run_command(c1) except: pass` wrapper around
the `ALTER TABLE` statement: whatever error the statement raises, the
bare `except:` discards it and execution continues with the table
unchanged. -/
def guardedAlter (t : Option GameLogTable) : Option GameLogTable :=
  match alterAddGameId t with
  | .ok t' => some t'
  | .error _ => t

/-- A row of the normalized `game` table (cell 21). -/
structure GameRow where
  game_id : Option String
  date : Nat
  number_of_game : Nat
  park_id : Option String
  length_outs : Option Int
  day : Option Nat
  completion : Option String
  forefeit : Option String
  protest : Option String
  attendance : Option Int
  length_minutes : Option Int
  additional_info : Option String
  acquisition_info : Option String
  deriving DecidableEq, Repr

/-- Embedding of the `SELECT` of statement `c2` of cell 21
(`INSERT OR IGNORE INTO game SELECT ... FROM game_log`), for one source
row.  The `day` column is
`CASE WHEN day_night = "D" THEN 1 WHEN day_night = "N" THEN 0 ELSE NULL END`;
a `NULL` `day_night` satisfies neither `WHEN` branch. -/
def mkGameRow (r : GameLogRow) : GameRow :=
  { game_id := r.game_id
    date := r.date
    number_of_game := r.number_of_game
    park_id := r.park_id
    length_outs := r.length_outs
    day := if r.day_night = some "D" then some 1
           else if r.day_night = some "N" then some 0
           else none
    completion := r.completion
    forefeit := r.forefeit
    protest := r.protest
    attendance := r.attendance
    length_minutes := r.length_minutes
    additional_info := r.additional_info
    acquisition_info := r.acquisition_info }

/-- A row of the normalized `team_appearance` table (cell 22), keyed by
`(team_id, game_id)`; `home` is the `1 AS home` / `0 AS home` literal. -/
structure TARow where
  team_id : String
  game_id : Option String
  home : Nat
  league_id : Option String
  stats : TeamStats
  deriving DecidableEq, Repr

/-- The home-side `SELECT` of the `team_appearance` insert: the `h_*`
column family tagged `1 AS home`. -/
def mkHomeTA (r : GameLogRow) : TARow :=
  { team_id := r.h_name, game_id := r.game_id, home := 1
    league_id := r.h_league, stats := r.h_stats }

/-- The visiting-side `SELECT` of the `team_appearance` insert: the `v_*`
column family tagged `0 AS home`. -/
def mkVisTA (r : GameLogRow) : TARow :=
  { team_id := r.v_name, game_id := r.game_id, home := 0
    league_id := r.v_league, stats := r.v_stats }

/-- Set semantics of SQL `UNION`: duplicate result rows are eliminated.
SQL leaves the row order of a compound `SELECT` without `ORDER BY`
unspecified; the model uses the deterministic order of `List.dedup`. -/
def sqlUnion [DecidableEq α] (l : List α) : List α := l.dedup

/-- The full source row set of the `team_appearance` insert:
the home-side `SELECT` `UNION` the visiting-side `SELECT`. -/
def taSource (log : List GameLogRow) : List TARow :=
  sqlUnion (log.map mkHomeTA ++ log.map mkVisTA)

/-- The values inserted into `person_appearance` by each `SELECT` branch:
the insert column list is `(game_id, team_id, person_id,
appearance_type_id)`; the surrogate `appearance_id` primary key is
auto-incremented, i.e. positional in the table list. -/
structure PARow where
  game_id : Option String
  team_id : Option String
  person_id : Option String
  appearance_type_id : Option String
  deriving DecidableEq, Repr

/-- One umpire `SELECT` branch of statement `c2` of cell 23:
`SELECT game_id, NULL, <umpire column>, "<tag>" FROM game_log WHERE
<umpire column> IS NOT NULL`. -/
def umpSel (f : GameLogRow → Option String) (tag : String)
    (log : List GameLogRow) : List PARow :=
  log.filterMap fun r => (f r).map fun p =>
    { game_id := r.game_id, team_id := none
      person_id := some p, appearance_type_id := some tag }

/-- One team-attributed `SELECT` branch of statement `c2` of cell 23:
`SELECT game_id, <team expression>, <person column>, "<tag>" FROM
game_log WHERE <person column> IS NOT NULL`. -/
def teamSel (team : GameLogRow → String) (f : GameLogRow → Option String)
    (tag : String) (log : List GameLogRow) : List PARow :=
  log.filterMap fun r => (f r).map fun p =>
    { game_id := r.game_id, team_id := some (team r)
      person_id := some p, appearance_type_id := some tag }

/-- The team expression of the winning-pitcher, saving-pitcher and
winning-RBI-batter branches:
`CASE WHEN h_score > v_score THEN h_name ELSE v_name END`. -/
def winnerName (r : GameLogRow) : String :=
  if sqlGt r.h_stats.score r.v_stats.score then r.h_name else r.v_name

/-- The team expression of the losing-pitcher branch:
`CASE WHEN h_score < v_score THEN h_name ELSE v_name END`. -/
def loserName (r : GameLogRow) : String :=
  if sqlLt r.h_stats.score r.v_stats.score then r.h_name else r.v_name

/-- The result set of statement `c2` of cell 23: the `UNION` of its
fourteen `SELECT` branches (six umpire positions, two managers, four
awards, two starting pitchers), in source order. -/
def c2Rows (log : List GameLogRow) : List PARow :=
  sqlUnion
    (umpSel (·.hp_umpire_id) "UHP" log
      ++ umpSel (·.b1_umpire_id) "U1B" log
      ++ umpSel (·.b2_umpire_id) "U2B" log
      ++ umpSel (·.b3_umpire_id) "U3B" log
      ++ umpSel (·.lf_umpire_id) "ULF" log
      ++ umpSel (·.rf_umpire_id) "URF" log
      ++ teamSel (·.v_name) (·.v_manager_id) "MM" log
      ++ teamSel (·.h_name) (·.h_manager_id) "MM" log
      ++ teamSel winnerName (·.winning_pitcher_id) "AWP" log
      ++ teamSel loserName (·.losing_pitcher_id) "ALP" log
      ++ teamSel winnerName (·.saving_pitcher_id) "ASP" log
      ++ teamSel winnerName (·.winning_rbi_batter_id) "AWB" log
      ++ teamSel (·.v_name) (·.v_starting_pitcher_id) "PSP" log
      ++ teamSel (·.h_name) (·.h_starting_pitcher_id) "PSP" log)

/-- The `hv` loop variable of the template loop of cell 23. -/
inductive Side where
  | h
  | v
  deriving DecidableEq, Repr

/-- `{hv}_name`. -/
def sideName : Side → GameLogRow → String
  | .h, r => r.h_name
  | .v, r => r.v_name

/-- The nine player slots of one side. -/
def sidePlayers : Side → GameLogRow → List Slot
  | .h, r => r.h_players
  | .v, r => r.v_players

/-- The `{hv}_player_{num}_id` / `{hv}_player_{num}_def_pos` column pair
(`num` ranges over `1..9`). -/
def slotAt (hv : Side) (num : Nat) (r : GameLogRow) : Slot :=
  (sidePlayers hv r).getD (num - 1) { pid := none, def_pos := none }

/-- The result set of one formatted `template` statement of cell 23, for
loop variables `hv` and `num`: the offensive `SELECT` (appearance type
`"O{num}"`) `UNION` the defensive `SELECT` (appearance type
`"D" || CAST({hv}_player_{num}_def_pos AS INT)`, which is `NULL` when the
position is `NULL`), both filtered on `{hv}_player_{num}_id IS NOT NULL`.
This statement is a plain `INSERT` (no `OR IGNORE`). -/
def templateRows (hv : Side) (num : Nat) (log : List GameLogRow) : List PARow :=
  sqlUnion
    ((log.filterMap fun r => (slotAt hv num r).pid.map fun p =>
        { game_id := r.game_id, team_id := some (sideName hv r)
          person_id := some p
          appearance_type_id := some ("O" ++ toString num) })
      ++ (log.filterMap fun r => (slotAt hv num r).pid.map fun p =>
        { game_id := r.game_id, team_id := some (sideName hv r)
          person_id := some p
          appearance_type_id :=
            (slotAt hv num r).def_pos.map fun d => "D" ++ toString d }))

/-- The complete content of `person_appearance` after cell 23: the table
is created empty, statement `c2` inserts its rows, then the loop runs the
template statement for `hv` in `["h","v"]` and `num` in `range(1,10)`,
each appending its result set (plain `INSERT`, surrogate primary key, so
nothing is deduplicated across statements). -/
def finalPA (log : List GameLogRow) : List PARow :=
  c2Rows log
    ++ ([Side.h, Side.v].flatMap fun hv =>
         (List.range' 1 9).flatMap fun num => templateRows hv num log)

/-- A raw `person_codes` row, restricted to the columns the `person`
insert selects (`id`, `first`, `last`). -/
structure PersonCodesRow where
  id : Option String
  first : Option String
  last : Option String
  deriving DecidableEq, Repr

/-- A row of the normalized `person` table (cell 16). -/
structure PersonRow where
  person_id : Option String
  first_name : Option String
  last_name : Option String
  deriving DecidableEq, Repr

/-- The `SELECT id, first, last FROM person_codes` projection. -/
def mkPersonRow (r : PersonCodesRow) : PersonRow :=
  { person_id := r.id, first_name := r.first, last_name := r.last }

/-- A raw `park_codes` row, restricted to the columns the `park` insert
selects. -/
structure ParkCodesRow where
  park_id : Option String
  name : Option String
  aka : Option String
  city : Option String
  state : Option String
  notes : Option String
  deriving DecidableEq, Repr

/-- A row of the normalized `park` table (cell 17); raw `aka` becomes
`nickname`. -/
structure ParkRow where
  park_id : Option String
  name : Option String
  nickname : Option String
  city : Option String
  state : Option String
  notes : Option String
  deriving DecidableEq, Repr

/-- The `SELECT park_id, name, aka, city, state, notes FROM park_codes`
projection. -/
def mkParkRow (r : ParkCodesRow) : ParkRow :=
  { park_id := r.park_id, name := r.name, nickname := r.aka
    city := r.city, state := r.state, notes := r.notes }

/-- A row of the `league` table (cell 18). -/
structure LeagueRow where
  league_id : String
  name : String
  deriving DecidableEq, Repr

/-- The six manually enumerated league rows of statement `c2` of
cell 18. -/
def leagueValues : List LeagueRow :=
  [{ league_id := "NL", name := "National League" },
   { league_id := "AL", name := "American League" },
   { league_id := "AA", name := "American Association" },
   { league_id := "FL", name := "Federal League" },
   { league_id := "PL", name := "Players League" },
   { league_id := "UA", name := "Union Association" }]

/-- A row of the `appearance_type` table (cell 19), loaded from
`appearance_type.csv`. -/
structure ATRow where
  appearance_type_id : Option String
  name : Option String
  category : Option String
  deriving DecidableEq, Repr

/-- A raw `team_codes` row, restricted to the columns the `team` insert
selects. -/
structure TeamCodesRow where
  team_id : Option String
  league : Option String
  city : Option String
  nickname : Option String
  franch_id : Option String
  deriving DecidableEq, Repr

/-- A row of the normalized `team` table (cell 20). -/
structure TeamRow where
  team_id : Option String
  league_id : Option String
  city : Option String
  nickname : Option String
  franch_id : Option String
  deriving DecidableEq, Repr

/-- The `SELECT team_id, league, city, nickname, franch_id FROM
team_codes` projection. -/
def mkTeamRow (r : TeamCodesRow) : TeamRow :=
  { team_id := r.team_id, league_id := r.league, city := r.city
    nickname := r.nickname, franch_id := r.franch_id }

/-- The rows of a table that may not exist: `CREATE TABLE IF NOT EXISTS`
turns an absent table into an empty one and keeps an existing one, and
`INSERT ... SELECT FROM t` reads `t`'s rows. -/
def orEmpty : Option (List α) → List α
  | none => []
  | some t => t

/-- `INSERT OR IGNORE`: rows are inserted in order into table `t`; a row
whose primary-key value (computed by `k`) is already present in the table
is skipped silently. -/
def insertOrIgnore [DecidableEq κ] (k : α → κ) (t : List α) : List α → List α
  | [] => t
  | r :: l => insertOrIgnore k (if k r ∈ t.map k then t else t ++ [r]) l

/-- The primary key of `team_appearance`: `(team_id, game_id)`. -/
def taKey (t : TARow) : String × Option String := (t.team_id, t.game_id)

/-- The four raw CSV inputs of the pipeline plus `appearance_type.csv`
(read in cell 19 and appended directly to its table). -/
structure RawInputs where
  gameLog : List GameLogRow
  personCodes : List PersonCodesRow
  parkCodes : List ParkCodesRow
  teamCodes : List TeamCodesRow
  appearanceType : List ATRow

/-- The SQLite database: one field per table the script ever touches;
`none` is an absent table. -/
structure DBState where
  gameLog : Option GameLogTable
  personCodes : Option (List PersonCodesRow)
  parkCodes : Option (List ParkCodesRow)
  teamCodes : Option (List TeamCodesRow)
  person : Option (List PersonRow)
  park : Option (List ParkRow)
  league : Option (List LeagueRow)
  appearanceType : Option (List ATRow)
  team : Option (List TeamRow)
  game : Option (List GameRow)
  teamAppearance : Option (List TARow)
  personAppearance : Option (List PARow)
  deriving DecidableEq, Repr

/-- A database with no tables. -/
def emptyState : DBState :=
  { gameLog := none, personCodes := none, parkCodes := none
    teamCodes := none, person := none, park := none, league := none
    appearanceType := none, team := none, game := none
    teamAppearance := none, personAppearance := none }

/-- Cell 13: `DROP TABLE IF EXISTS` then `DataFrame.to_sql` for each of
the four raw CSVs.  `game_log.csv` has no `game_id` column, so the
rebuilt `game_log` table lacks it (`hasGameId := false`, every row's
field `none`). -/
def loadStep (raw : RawInputs) (s : DBState) : DBState :=
  { s with
    gameLog := some
      { hasGameId := false
        rows := raw.gameLog.map fun r => { r with game_id := none } }
    personCodes := some raw.personCodes
    parkCodes := some raw.parkCodes
    teamCodes := some raw.teamCodes }

/-- Cell 15, statement `c1` inside `try/except`: the guarded
`ALTER TABLE game_log ADD COLUMN game_id TEXT`. -/
def alterStep (s : DBState) : DBState :=
  { s with gameLog := guardedAlter s.gameLog }

/-- Cell 15, statement `c2`: the game_id `UPDATE`. -/
def updateStep (s : DBState) : DBState :=
  { s with gameLog := s.gameLog.map fun t => { t with rows := updateGameId t.rows } }

/-- The rows of the `game_log` table (empty when absent). -/
def logRowsOf : Option GameLogTable → List GameLogRow
  | none => []
  | some t => t.rows

/-- Cell 16: create `person` if absent and
`INSERT OR IGNORE INTO person SELECT id, first, last FROM person_codes`
(primary key `person_id`). -/
def personStep (s : DBState) : DBState :=
  { s with person := some (insertOrIgnore (·.person_id) (orEmpty s.person)
      ((orEmpty s.personCodes).map mkPersonRow)) }

/-- Cell 17: create `park` if absent and insert from `park_codes`
(primary key `park_id`). -/
def parkStep (s : DBState) : DBState :=
  { s with park := some (insertOrIgnore (·.park_id) (orEmpty s.park)
      ((orEmpty s.parkCodes).map mkParkRow)) }

/-- Cell 18: create `league` if absent and
`INSERT OR IGNORE` the six enumerated league rows (primary key
`league_id`). -/
def leagueStep (s : DBState) : DBState :=
  { s with league := some (insertOrIgnore (·.league_id) (orEmpty s.league)
      leagueValues) }

/-- Cell 19: `DROP TABLE IF EXISTS appearance_type`, recreate it, and
append the rows of `appearance_type.csv` — the effect when the drop is
not blocked by a foreign-key reference.  The blocking check itself is
`dropATBlocked` / `atStepE` in the enforcement layer. -/
def atStep (raw : RawInputs) (s : DBState) : DBState :=
  { s with appearanceType := some raw.appearanceType }

/-- Cell 20: create `team` if absent and insert from `team_codes`
(primary key `team_id`). -/
def teamStep (s : DBState) : DBState :=
  { s with team := some (insertOrIgnore (·.team_id) (orEmpty s.team)
      ((orEmpty s.teamCodes).map mkTeamRow)) }

/-- Cell 21: create `game` if absent and
`INSERT OR IGNORE INTO game SELECT ... FROM game_log` (primary key
`game_id`). -/
def gameStep (s : DBState) : DBState :=
  { s with game := some (insertOrIgnore (·.game_id) (orEmpty s.game)
      ((logRowsOf s.gameLog).map mkGameRow)) }

/-- Cell 22: create `team_appearance` if absent and
`INSERT OR IGNORE` the home/visitor `UNION` (primary key
`(team_id, game_id)`). -/
def taStep (s : DBState) : DBState :=
  { s with teamAppearance := some (insertOrIgnore taKey
      (orEmpty s.teamAppearance) (taSource (logRowsOf s.gameLog))) }

/-- Cell 23: `DROP TABLE IF EXISTS person_appearance`, recreate it, run
statement `c2`, then the eighteen template statements. -/
def paStep (s : DBState) : DBState :=
  { s with personAppearance := some (finalPA (logRowsOf s.gameLog)) }

/-- Cell 26: `DROP TABLE` for each of the four raw tables. -/
def cleanupStep (s : DBState) : DBState :=
  { s with gameLog := none, personCodes := none, parkCodes := none
           teamCodes := none }

/-- The whole migration pipeline, cells 13 through 26 in source order:
the result-set layer, giving the state a run produces when every
foreign-key check passes.  The run with enforcement is `migrateE`. -/
def migrate (raw : RawInputs) (s : DBState) : DBState :=
  cleanupStep (paStep (taStep (gameStep (teamStep (atStep raw
    (leagueStep (parkStep (personStep (updateStep (alterStep
      (loadStep raw s)))))))))))

/-- The content of the `game_log` table after loading and the `game_id`
update: the pipeline value every later insert reads. -/
def updatedLog (raw : RawInputs) : List GameLogRow :=
  updateGameId (raw.gameLog.map fun r => { r with game_id := none })

/-- A foreign-key check of one child value against the parent table's
key column: SQLite passes a NULL child value and otherwise requires a
matching parent key (a NULL parent key matches nothing). -/
def fkHolds (parents : List (Option String)) : Option String → Bool
  | none => true
  | some k => decide (some k ∈ parents)

/-- Modelled from the spec: the `appearance_type_id` values of
`appearance_type.csv`, which is read in cell 19 but is not part of the
repository source.  The spec describes the catalog as the closed set of
appearance categories: the nine offensive batting slots, the defensive
positions 1 through 10 (10 being the explicit "unknown position"
category), the six umpire roles, the manager role, the four awards and
the starting-pitcher role — the tags the insert statements of cell 23
cross-reference. -/
def atCatalogIds : List (Option String) :=
  [some "O1", some "O2", some "O3", some "O4", some "O5", some "O6",
   some "O7", some "O8", some "O9",
   some "D1", some "D2", some "D3", some "D4", some "D5", some "D6",
   some "D7", some "D8", some "D9", some "D10",
   some "UHP", some "U1B", some "U2B", some "U3B", some "ULF", some "URF",
   some "MM", some "AWP", some "ALP", some "ASP", some "AWB", some "PSP"]

/-- The four foreign keys declared on `person_appearance`: `person_id`,
`team_id`, `game_id` and `appearance_type_id` each reference their
parent table's key column. -/
def paFkOk (persons teams games ats : List (Option String)) (p : PARow) : Bool :=
  fkHolds persons p.person_id && fkHolds teams p.team_id
    && fkHolds games p.game_id && fkHolds ats p.appearance_type_id

/-- The foreign keys declared on `team_appearance`: `team_id` and
`game_id` (none is declared on `league_id`). -/
def taFkOk (teamKeys gameKeys : List (Option String)) (t : TARow) : Bool :=
  fkHolds teamKeys (some t.team_id) && fkHolds gameKeys t.game_id

/-- `INSERT OR IGNORE` with `PRAGMA foreign_keys = ON`: a row whose
primary-key value is already present is skipped before any check; a
non-skipped row that violates a foreign key aborts the whole statement
(the `IGNORE` conflict algorithm does not apply to foreign keys), and
the statement being atomic, nothing of it persists. -/
def insertOrIgnoreE [DecidableEq κ] (k : α → κ) (fk : α → Bool)
    (t : List α) : List α → Except SqlError (List α)
  | [] => .ok t
  | r :: l =>
    if k r ∈ t.map k then insertOrIgnoreE k fk t l
    else if fk r then insertOrIgnoreE k fk (t ++ [r]) l
    else .error .fkViolation

/-- One plain `INSERT` statement under enforcement, against table `t`:
if every computed row satisfies the foreign keys the statement commits
them all, otherwise it aborts atomically and the table is unchanged. -/
def runStmt (fk : PARow → Bool) (t stmt : List PARow) : List PARow × Bool :=
  if stmt.all fk then (t ++ stmt, true) else (t, false)

/-- A sequence of separately committed `INSERT` statements: each
successful statement's rows persist; the first failing statement halts
the script, keeping what the earlier statements committed. -/
def runStmts (fk : PARow → Bool) : List PARow → List (List PARow) → List PARow × Bool
  | t, [] => (t, true)
  | t, stmt :: rest =>
    if stmt.all fk then runStmts fk (t ++ stmt) rest else (t, false)

/-- The `person_appearance` statements of cell 23 in execution order:
statement `c2`, then the template statement for `hv` in `["h","v"]` and
`num` in `range(1,10)`. -/
def paStmts (log : List GameLogRow) : List (List PARow) :=
  c2Rows log
    :: [Side.h, Side.v].flatMap fun hv =>
        (List.range' 1 9).map fun num => templateRows hv num log

/-- The `person_appearance` content of cell 23 under enforcement: the
persisted rows and whether all nineteen statements completed. -/
def finalPAE (fk : PARow → Bool) (log : List GameLogRow) : List PARow × Bool :=
  runStmts fk [] (paStmts log)

/-- Whether `DROP TABLE IF EXISTS appearance_type` is blocked: with
enforcement on, the drop's implicit delete of every `appearance_type`
row fails as soon as an existing `person_appearance` row references one
of them (a NULL `appearance_type_id` references nothing); an absent
table is nothing to drop. -/
def dropATBlocked (s : DBState) : Bool :=
  match s.appearanceType with
  | none => false
  | some ats =>
    (orEmpty s.personAppearance).any fun p =>
      match p.appearance_type_id with
      | none => false
      | some k => decide (some k ∈ ats.map fun a => a.appearance_type_id)

/-- Cell 19 under enforcement: the guarded-by-nothing
`DROP TABLE IF EXISTS appearance_type` raises a foreign-key failure when
blocked, halting the script; otherwise the table is rebuilt from the
CSV (appended over a plain connection). -/
def atStepE (raw : RawInputs) (s : DBState) : Except SqlError DBState :=
  if dropATBlocked s then .error .fkViolation else .ok (atStep raw s)

/-- Cell 20 under enforcement: the `team` insert checks its `league_id`
foreign key against the `league` table. -/
def teamStepE (s : DBState) : Except SqlError DBState :=
  (insertOrIgnoreE (fun t : TeamRow => t.team_id)
      (fun t => fkHolds ((orEmpty s.league).map fun l => some l.league_id)
        t.league_id)
      (orEmpty s.team) ((orEmpty s.teamCodes).map mkTeamRow)).map
    fun tbl => { s with team := some tbl }

/-- Cell 21 under enforcement: the `game` insert checks its `park_id`
foreign key against the `park` table. -/
def gameStepE (s : DBState) : Except SqlError DBState :=
  (insertOrIgnoreE (fun g : GameRow => g.game_id)
      (fun g => fkHolds ((orEmpty s.park).map fun p => p.park_id) g.park_id)
      (orEmpty s.game) ((logRowsOf s.gameLog).map mkGameRow)).map
    fun tbl => { s with game := some tbl }

/-- Cell 22 under enforcement: the `team_appearance` insert checks its
`team_id` and `game_id` foreign keys. -/
def taStepE (s : DBState) : Except SqlError DBState :=
  (insertOrIgnoreE taKey
      (taFkOk ((orEmpty s.team).map fun t => t.team_id)
        ((orEmpty s.game).map fun g => g.game_id))
      (orEmpty s.teamAppearance) (taSource (logRowsOf s.gameLog))).map
    fun tbl => { s with teamAppearance := some tbl }

/-- Cell 23 under enforcement: drop and recreate `person_appearance`
(dropping the child table is never blocked), then run the nineteen
insert statements; a foreign-key failure in any of them halts the
script. -/
def paStepE (s : DBState) : Except SqlError DBState :=
  let fk := paFkOk ((orEmpty s.person).map fun p => p.person_id)
      ((orEmpty s.team).map fun t => t.team_id)
      ((orEmpty s.game).map fun g => g.game_id)
      ((orEmpty s.appearanceType).map fun a => a.appearance_type_id)
  let res := finalPAE fk (logRowsOf s.gameLog)
  if res.2 then .ok { s with personAppearance := some res.1 }
  else .error .fkViolation

/-- The whole migration pipeline with `PRAGMA foreign_keys = ON`
enforcement, cells 13 through 26 in source order.  The loader, the
`ALTER`/`UPDATE` of `game_log` and the `person`, `park` and `league`
inserts cannot violate a foreign key (those tables declare none); the
remaining steps can, and the first failure halts the run. -/
def migrateE (raw : RawInputs) (s : DBState) : Except SqlError DBState :=
  let s6 := leagueStep (parkStep (personStep (updateStep (alterStep
    (loadStep raw s)))))
  (atStepE raw s6).bind fun s7 =>
  (teamStepE s7).bind fun s8 =>
  (gameStepE s8).bind fun s9 =>
  (taStepE s9).bind fun s10 =>
  (paStepE s10).map cleanupStep

/-- The schema-creation statements alone, re-executed against an
existing store under enforcement: the `CREATE TABLE IF NOT EXISTS`
statements of cells 16, 17, 18, 20, 21 and 22, and the
`DROP TABLE IF EXISTS` + `CREATE TABLE` pairs of cells 19 and 23 — the
cell 19 drop fails, halting the re-run, whenever `person_appearance`
still references `appearance_type`. -/
def schemaCreationE (s : DBState) : Except SqlError DBState :=
  let s1 := { s with person := some (orEmpty s.person)
                     park := some (orEmpty s.park)
                     league := some (orEmpty s.league) }
  if dropATBlocked s1 then .error .fkViolation
  else .ok { s1 with appearanceType := some []
                     team := some (orEmpty s1.team)
                     game := some (orEmpty s1.game)
                     teamAppearance := some (orEmpty s1.teamAppearance)
                     personAppearance := some [] }

/-- Whether a pipeline run completed. -/
def okB : Except SqlError DBState → Bool
  | .ok _ => true
  | .error _ => false

/-- Whether a pipeline run halted with a foreign-key failure. -/
def isFkError : Except SqlError DBState → Bool
  | .error .fkViolation => true
  | _ => false

/-- The state of a completed run (the empty database otherwise). -/
def stateOf : Except SqlError DBState → DBState
  | .ok s => s
  | .error _ => emptyState

/-- An all-NULL statistics family, for concrete test rows. -/
def noStats : TeamStats :=
  { score := none, line_score := none, at_bats := none, hits := none
    doubles := none, triples := none, homeruns := none, rbi := none
    sacrifice_hits := none, sacrifice_flies := none, hit_by_pitch := none
    walks := none, intentional_walks := none, strikeouts := none
    stolen_bases := none, caught_stealing := none
    grounded_into_double := none, first_catcher_interference := none
    left_on_base := none, pitchers_used := none
    individual_earned_runs := none, team_earned_runs := none
    wild_pitches := none, balks := none, putouts := none, assists := none
    errors := none, passed_balls := none, double_plays := none
    triple_plays := none }

/-- An empty player slot. -/
def emptySlot : Slot := { pid := none, def_pos := none }

/-- A concrete `game_log` row with every nullable column NULL, for
building test inputs. -/
def baseRow : GameLogRow :=
  { date := 0, number_of_game := 0, day_night := none
    v_name := "VIS", v_league := none, h_name := "HOM", h_league := none
    park_id := none, length_outs := none, completion := none
    forefeit := none, protest := none, attendance := none
    length_minutes := none, additional_info := none
    acquisition_info := none, h_stats := noStats, v_stats := noStats
    hp_umpire_id := none, b1_umpire_id := none, b2_umpire_id := none
    b3_umpire_id := none, lf_umpire_id := none, rf_umpire_id := none
    v_manager_id := none, h_manager_id := none
    winning_pitcher_id := none, losing_pitcher_id := none
    saving_pitcher_id := none, winning_rbi_batter_id := none
    v_starting_pitcher_id := none, h_starting_pitcher_id := none
    h_players := List.replicate 9 emptySlot
    v_players := List.replicate 9 emptySlot
    game_id := none }

/-- The appearance-type ids of the six umpire `SELECT` branches of
statement `c2` of cell 23. -/
def umpireTypeIds : List (Option String) :=
  [some "UHP", some "U1B", some "U2B", some "U3B", some "ULF", some "URF"]

/-- A post-update `game_log` row whose first batting slot holds a player
with declared defensive position code `0` and whose second slot holds a
player with a NULL position code. -/
def posZeroRow : GameLogRow :=
  { baseRow with
    game_id := some "G1"
    h_players := [{ pid := some "p001", def_pos := some 0 },
                  { pid := some "p002", def_pos := none },
                  emptySlot, emptySlot, emptySlot, emptySlot, emptySlot,
                  emptySlot, emptySlot] }

/-- A post-update `game_log` row in which the same player id with the
same defensive position appears in two batting slots of the home side. -/
def dupSlotRow : GameLogRow :=
  { baseRow with
    game_id := some "G1"
    h_players := [{ pid := some "pp", def_pos := some 3 },
                  { pid := some "pp", def_pos := some 3 },
                  emptySlot, emptySlot, emptySlot, emptySlot, emptySlot,
                  emptySlot, emptySlot] }

/-- The fact row of the concrete game-id scenario: date `18710504`, home
team `FW1`, game number `0`. -/
def fw1Row : GameLogRow := { baseRow with date := 18710504, h_name := "FW1" }

/-- Raw inputs holding the single fact row of the concrete game-id
scenario. -/
def gameIdSampleRaw : RawInputs :=
  { gameLog := [fw1Row]
    personCodes := [], parkCodes := [], teamCodes := []
    appearanceType := [] }

/-- A `team_codes` row holding only a team id. -/
def teamCodeOnly (id : String) : TeamCodesRow :=
  { team_id := some id, league := none, city := none, nickname := none
    franch_id := none }

/-- Raw inputs holding one fact row whose home league is NULL (the game
log has about a thousand such games) and whose visiting league is
`"NL"`; both teams are present in `team_codes` so every foreign key of
the run resolves. -/
def nullLeagueRaw : RawInputs :=
  { gameLog := [{ baseRow with v_league := some "NL" }]
    personCodes := [], parkCodes := []
    teamCodes := [teamCodeOnly "HOM", teamCodeOnly "VIS"]
    appearanceType := [] }

/-- Raw inputs holding one fact row in which the home and the visiting
team id are the same team. -/
def sameTeamRaw : RawInputs :=
  { gameLog := [{ baseRow with v_name := "HOM" }]
    personCodes := [], parkCodes := []
    teamCodes := [teamCodeOnly "HOM"]
    appearanceType := [] }

/-- Raw inputs holding two fact rows that derive the same game_id (same
date, home team and game number) against different visitors. -/
def dupGameRaw : RawInputs :=
  { gameLog := [baseRow, { baseRow with v_name := "AWY" }]
    personCodes := [], parkCodes := []
    teamCodes := [teamCodeOnly "HOM", teamCodeOnly "VIS", teamCodeOnly "AWY"]
    appearanceType := [] }

/-- A post-update `game_log` row with all four award columns set and a
decided score (home 5, visitors 3). -/
def awardSampleRow : GameLogRow :=
  { baseRow with
    game_id := some "G1"
    h_stats := { noStats with score := some 5 }
    v_stats := { noStats with score := some 3 }
    winning_pitcher_id := some "wp01"
    losing_pitcher_id := some "lp01"
    saving_pitcher_id := some "sp01"
    winning_rbi_batter_id := some "wb01" }

/-- A post-update `game_log` row with a home-plate umpire and a home
manager. -/
def umpireSampleRow : GameLogRow :=
  { baseRow with
    game_id := some "G1"
    hp_umpire_id := some "ump1"
    h_manager_id := some "mgr1" }

/-- A post-update `game_log` row whose first home batting slot holds a
player with a NULL defensive position code (and no other player). -/
def nullPosRow : GameLogRow :=
  { baseRow with
    game_id := some "G1"
    h_players := [{ pid := some "p002", def_pos := none },
                  emptySlot, emptySlot, emptySlot, emptySlot, emptySlot,
                  emptySlot, emptySlot, emptySlot] }

/-- Parent-key columns of a store in which persons p001 and p002, teams
HOM and VIS and game G1 exist. -/
def samplePersonKeys : List (Option String) := [some "p001", some "p002"]

/-- The team keys of the sample store. -/
def sampleTeamKeys : List (Option String) := [some "HOM", some "VIS"]

/-- The game keys of the sample store. -/
def sampleGameKeys : List (Option String) := [some "G1"]

/-- Raw inputs for a complete, foreign-key-consistent first run: one
fact row with a home-plate umpire and a home manager, both present in
`person_codes`, both teams in `team_codes`, and an appearance-type CSV
holding the two referenced categories. -/
def c3SampleRaw : RawInputs :=
  { gameLog := [{ baseRow with hp_umpire_id := some "ump1"
                               h_manager_id := some "mgr1" }]
    personCodes := [{ id := some "ump1", first := none, last := none },
                    { id := some "mgr1", first := none, last := none }]
    parkCodes := []
    teamCodes := [teamCodeOnly "HOM", teamCodeOnly "VIS"]
    appearanceType := [{ appearance_type_id := some "UHP", name := none
                         category := none },
                       { appearance_type_id := some "MM", name := none
                         category := none }] }

/-- A database in which `person_appearance` holds a row referencing the
populated `appearance_type` catalog, as after a completed migration. -/
def referencingPAState : DBState :=
  { emptyState with
    appearanceType := some [{ appearance_type_id := some "UHP"
                              name := none, category := none }]
    personAppearance := some [{ game_id := some "G1", team_id := none
                                person_id := some "ump1"
                                appearance_type_id := some "UHP" }] }

/-- Helper: `migrate` written as a single record, obtained by running the
pipeline steps in order. -/
theorem migrate_def (raw : RawInputs) (s : DBState) :
    migrate raw s =
      { gameLog := none, personCodes := none, parkCodes := none
        teamCodes := none
        person := some (insertOrIgnore (·.person_id) (orEmpty s.person)
          (raw.personCodes.map mkPersonRow))
        park := some (insertOrIgnore (·.park_id) (orEmpty s.park)
          (raw.parkCodes.map mkParkRow))
        league := some (insertOrIgnore (·.league_id) (orEmpty s.league)
          leagueValues)
        appearanceType := some raw.appearanceType
        team := some (insertOrIgnore (·.team_id) (orEmpty s.team)
          (raw.teamCodes.map mkTeamRow))
        game := some (insertOrIgnore (·.game_id) (orEmpty s.game)
          ((updatedLog raw).map mkGameRow))
        teamAppearance := some (insertOrIgnore taKey
          (orEmpty s.teamAppearance) (taSource (updatedLog raw)))
        personAppearance := some (finalPA (updatedLog raw)) } := rfl

/-- Helper: the key values present after an `INSERT OR IGNORE` are the
old ones plus the keys of the inserted rows. -/
theorem mem_map_insertOrIgnore [DecidableEq κ] (k : α → κ) (t l : List α) (K : κ) :
    K ∈ (insertOrIgnore k t l).map k ↔ K ∈ t.map k ∨ K ∈ l.map k := by
  induction l generalizing t with
  | nil => simp [insertOrIgnore]
  | cons r l ih =>
    rw [insertOrIgnore, ih]
    by_cases h : k r ∈ t.map k
    · simp only [if_pos h, List.map_cons, List.mem_cons]
      constructor
      · exact fun h' => h'.imp_right Or.inr
      · rintro (h1 | h2 | h3)
        · exact Or.inl h1
        · exact Or.inl (h2 ▸ h)
        · exact Or.inr h3
    · simp only [if_neg h, List.map_append, List.mem_append, List.map_cons,
        List.map_nil, List.mem_cons, List.not_mem_nil, or_false,
        List.mem_singleton]
      rw [or_assoc]

/-- Helper: inserting rows whose keys are all already present changes
nothing. -/
theorem insertOrIgnore_no_new [DecidableEq κ] (k : α → κ) (t l : List α)
    (h : ∀ r ∈ l, k r ∈ t.map k) : insertOrIgnore k t l = t := by
  induction l with
  | nil => rfl
  | cons r l ih =>
    rw [insertOrIgnore, if_pos (h r (List.mem_cons_self r l))]
    exact ih fun x hx => h x (List.mem_cons_of_mem r hx)

/-- Helper: re-running the same `INSERT OR IGNORE` statement is a
no-op. -/
theorem insertOrIgnore_idem [DecidableEq κ] (k : α → κ) (t l : List α) :
    insertOrIgnore k (insertOrIgnore k t l) l = insertOrIgnore k t l :=
  insertOrIgnore_no_new k _ l fun r hr =>
    (mem_map_insertOrIgnore k t l (k r)).2 (Or.inr (List.mem_map_of_mem k hr))

/-- Helper: `INSERT OR IGNORE` preserves key uniqueness. -/
theorem nodup_map_insertOrIgnore [DecidableEq κ] (k : α → κ) (t l : List α)
    (h : (t.map k).Nodup) : ((insertOrIgnore k t l).map k).Nodup := by
  induction l generalizing t with
  | nil => exact h
  | cons r l ih =>
    rw [insertOrIgnore]
    by_cases hr : k r ∈ t.map k
    · rw [if_pos hr]; exact ih t h
    · rw [if_neg hr]
      refine ih (t ++ [r]) ?_
      rw [List.map_append]
      simp only [List.nodup_append, List.map_cons, List.map_nil,
        List.nodup_cons, List.not_mem_nil, not_false_iff, List.nodup_nil,
        and_true, List.disjoint_singleton, true_and]
      exact ⟨h, hr⟩

/-- Helper: inserting rows with pairwise-distinct keys, none of which is
already present, appends them all. -/
theorem insertOrIgnore_append [DecidableEq κ] (k : α → κ) (t l : List α)
    (hn : (l.map k).Nodup) (hd : ∀ K ∈ l.map k, K ∉ t.map k) :
    insertOrIgnore k t l = t ++ l := by
  induction l generalizing t with
  | nil => simp [insertOrIgnore]
  | cons r l ih =>
    rw [List.map_cons, List.nodup_cons] at hn
    have hrt : k r ∉ t.map k := hd (k r) (by simp)
    rw [insertOrIgnore, if_neg hrt]
    rw [ih (t ++ [r]) hn.2 ?_]
    · simp
    · intro K hK
      rw [List.map_append]
      simp only [List.mem_append, List.map_cons, List.map_nil,
        List.mem_singleton, List.not_mem_nil, or_false]
      rintro (h1 | rfl)
      · exact hd K (List.mem_cons_of_mem _ hK) h1
      · exact hn.1 hK

/-- Helper: when every inserted row satisfies the foreign keys, the
enforced `INSERT OR IGNORE` succeeds with the unenforced result. -/
theorem insertOrIgnoreE_ok [DecidableEq κ] (k : α → κ) (fk : α → Bool)
    (t l : List α) (h : ∀ r ∈ l, fk r = true) :
    insertOrIgnoreE k fk t l = Except.ok (insertOrIgnore k t l) := by
  induction l generalizing t with
  | nil => rfl
  | cons r l ih =>
    rw [insertOrIgnoreE, insertOrIgnore]
    by_cases hk : k r ∈ t.map k
    · rw [if_pos hk, if_pos hk]
      exact ih t fun x hx => h x (List.mem_cons_of_mem r hx)
    · rw [if_neg hk, if_neg hk, if_pos (h r (List.mem_cons_self r l))]
      exact ih (t ++ [r]) fun x hx => h x (List.mem_cons_of_mem r hx)

/-- Helper: a predicate satisfied by exactly one element of a
duplicate-free list is counted once. -/
theorem countP_eq_one_of_unique (p : α → Bool) (l : List α) (a : α)
    (hn : l.Nodup) (ha : a ∈ l) (hu : ∀ x ∈ l, p x = true → x = a)
    (hp : p a = true) : l.countP p = 1 := by
  induction l with
  | nil => cases ha
  | cons x l ih =>
    rw [List.nodup_cons] at hn
    rcases List.mem_cons.1 ha with rfl | hal
    · rw [List.countP_cons, List.countP_eq_zero.2, if_pos hp]
      intro y hy hpy
      exact absurd ((hu y (List.mem_cons_of_mem _ hy) hpy) ▸ hy) hn.1
    · have hpx : p x = false := by
        rcases Bool.eq_false_or_eq_true (p x) with h | h
        · exact absurd ((hu x (List.mem_cons_self x l) h) ▸ hal) hn.1
        · exact h
      rw [List.countP_cons, hpx, if_neg (by simp), Nat.add_zero]
      exact ih hn.2 hal fun y hy => hu y (List.mem_cons_of_mem _ hy)

/-- Helper: in a table with duplicate-free keys, a present key value
matches exactly one row. -/
theorem countP_key_eq_one [DecidableEq κ] (k : α → κ) (t : List α) (K : κ)
    (hn : (t.map k).Nodup) (hK : K ∈ t.map k) :
    t.countP (fun x => decide (k x = K)) = 1 := by
  calc t.countP (fun x => decide (k x = K))
      = (t.map k).countP (fun y => decide (y = K)) := by
        rw [List.countP_map]; rfl
    _ = 1 := countP_eq_one_of_unique _ _ K hn hK
        (fun x _ hx => of_decide_eq_true hx) (by simp)

/-- Helper: no defensive appearance type (`"D" || ...`) is an umpire
appearance type (all of which start with `U`). -/
theorem dTag_not_umpire (x : String) : some ("D" ++ x) ∉ umpireTypeIds := by
  intro h
  simp only [umpireTypeIds, List.mem_cons, List.not_mem_nil, or_false] at h
  rcases h with h | h | h | h | h | h <;>
  · have h2 := congrArg String.data (Option.some.inj h)
    rw [String.data_append] at h2
    simp at h2

/-- Helper: no offensive appearance type (`"O{num}"`) is an umpire
appearance type. -/
theorem oTag_not_umpire (x : String) : some ("O" ++ x) ∉ umpireTypeIds := by
  intro h
  simp only [umpireTypeIds, List.mem_cons, List.not_mem_nil, or_false] at h
  rcases h with h | h | h | h | h | h <;>
  · have h2 := congrArg String.data (Option.some.inj h)
    rw [String.data_append] at h2
    simp at h2

/-- c9: For every game_log row, the day column of the inserted game row
equals 1 when day_night is "D", 0 when it is "N", and NULL for any other
value (including NULL); no other day value is ever stored. -/
theorem c9_day_mapping (r : GameLogRow) :
    ((mkGameRow r).day = some 1 ↔ r.day_night = some "D")
    ∧ ((mkGameRow r).day = some 0 ↔ r.day_night = some "N")
    ∧ ((mkGameRow r).day = none ↔
        (r.day_night ≠ some "D" ∧ r.day_night ≠ some "N"))
    ∧ ((mkGameRow r).day = some 1 ∨ (mkGameRow r).day = some 0
        ∨ (mkGameRow r).day = none) := by
  simp only [mkGameRow]
  by_cases h1 : r.day_night = some "D"
  · simp [h1]
  · by_cases h2 : r.day_night = some "N"
    · simp [h1, h2]
    · simp [h1, h2]

/-- c2 counterexample: running the guarded ALTER TABLE against a database
with no game_log table raises the "no such table" failure — not the
"duplicate column" one — and the bare except discards it: execution
continues with the state unchanged instead of propagating the error. -/
theorem c2_counterexample :
    alterAddGameId none = Except.error SqlError.noSuchTable
    ∧ SqlError.noSuchTable ≠ SqlError.duplicateColumn
    ∧ guardedAlter none = none :=
  ⟨rfl, by decide, rfl⟩

/-- c2 amended: the bare `except: pass` suppresses every failure of the
ALTER TABLE statement, of any kind whatsoever — not only the "duplicate
column" failure: whenever the statement errors, execution continues with
the game_log table unchanged. -/
theorem c2_amended (t : Option GameLogTable) (e : SqlError)
    (h : alterAddGameId t = Except.error e) : guardedAlter t = t := by
  unfold guardedAlter
  rw [h]

/-- Witness for c2_amended at the "duplicate column" instance: a table
that already has the column errors and is left unchanged. -/
theorem c2_amended_witness :
    alterAddGameId (some { hasGameId := true, rows := [] })
        = Except.error SqlError.duplicateColumn
    ∧ guardedAlter (some { hasGameId := true, rows := [] })
        = some { hasGameId := true, rows := [] } :=
  ⟨rfl, c2_amended (some { hasGameId := true, rows := [] })
    SqlError.duplicateColumn rfl⟩

/-- c3 counterexample: against concrete raw inputs the first migration
run completes, but running the pipeline a second time does not reproduce
the final contents — it halts with a foreign-key failure at cell 19's
`DROP TABLE IF EXISTS appearance_type`, because the populated
person_appearance references the catalog; re-running the schema-creation
steps alone against the migrated store errors at the same statement
instead of being a data-preserving no-op. -/
theorem c3_counterexample :
    okB (migrateE c3SampleRaw emptyState) = true
    ∧ isFkError ((migrateE c3SampleRaw emptyState).bind fun s1 =>
        migrateE c3SampleRaw s1) = true
    ∧ isFkError ((migrateE c3SampleRaw emptyState).bind fun s1 =>
        schemaCreationE s1) = true := by
  decide

/-- c3 amended: the migration is not re-runnable: against any store in
which person_appearance holds a row referencing the appearance_type
catalog — as any completed, populated run leaves it — a second pipeline
run halts with a foreign-key failure at the
`DROP TABLE IF EXISTS appearance_type` statement of cell 19 (the
enforcement every run_command enables blocks dropping a referenced
parent table), and re-running the schema-creation steps alone errors at
that same statement; neither reproduces the first run's final state. -/
theorem c3_amended (raw : RawInputs) (s : DBState)
    (h : dropATBlocked s = true) :
    migrateE raw s = Except.error SqlError.fkViolation
    ∧ schemaCreationE s = Except.error SqlError.fkViolation := by
  constructor
  · have h1 : dropATBlocked (leagueStep (parkStep (personStep (updateStep
        (alterStep (loadStep raw s)))))) = true := h
    simp only [migrateE, atStepE]
    rw [if_pos h1]
    rfl
  · have h2 : dropATBlocked { s with person := some (orEmpty s.person)
                                     park := some (orEmpty s.park)
                                     league := some (orEmpty s.league) }
        = true := h
    simp only [schemaCreationE]
    rw [if_pos h2]

/-- Witness for c3_amended at the concrete referencing store. -/
theorem c3_witness :
    dropATBlocked referencingPAState = true
    ∧ (migrateE c3SampleRaw referencingPAState
        = Except.error SqlError.fkViolation
      ∧ schemaCreationE referencingPAState
        = Except.error SqlError.fkViolation) :=
  ⟨by decide, c3_amended c3SampleRaw referencingPAState (by decide)⟩

/-- c1 counterexample: under the foreign-key enforcement every
run_command enables, a player row with declared position code 0 computes
the tag "D0", which is outside the appearance_type catalog, so the
template statement aborts and persists nothing at all — in particular no
"unknown position" row (the claim's promised row is never produced); and
a player row with a NULL position code persists a row whose
appearance_type_id is NULL, not the unknown-position category. -/
theorem c1_counterexample :
    finalPAE (paFkOk samplePersonKeys sampleTeamKeys sampleGameKeys
        atCatalogIds) [posZeroRow]
      = ([], false)
    ∧ (finalPAE (paFkOk samplePersonKeys sampleTeamKeys sampleGameKeys
        atCatalogIds) [nullPosRow]).2 = true
    ∧ ({ game_id := some "G1"
         team_id := some "HOM"
         person_id := some "p002"
         appearance_type_id := none } : PARow)
        ∈ (finalPAE (paFkOk samplePersonKeys sampleTeamKeys sampleGameKeys
            atCatalogIds) [nullPosRow]).1
    ∧ ∀ t ∈ (finalPAE (paFkOk samplePersonKeys sampleTeamKeys
          sampleGameKeys atCatalogIds) [nullPosRow]).1,
        t.appearance_type_id ≠ some "D10" := by
  decide

/-- c1 amended: for every game_log row in which `{hv}_player_{num}_id`
is present, the template statement computes a defensive
person_appearance row whose appearance_type_id is `"D"` concatenated
with the declared position code.  Code 10 yields "D10", the catalog's
"unknown position" category.  A NULL code yields a NULL
appearance_type_id — which passes the foreign key and is persisted, but
is not the unknown-position category.  Code 0 yields the literal "D0",
which is outside the catalog, so under the enabled foreign-key
enforcement the statement aborts and persists none of its rows: no
person_appearance row ever carries a numeric position of zero, but the
0-coded appearance is lost to a fatal error, not mapped to the
unknown-position category. -/
theorem c1_amended (hv : Side) (num : Nat) (log : List GameLogRow)
    (r : GameLogRow) (p : String) (ps ts gs : List (Option String))
    (hr : r ∈ log) (hp : (slotAt hv num r).pid = some p) :
    ({ game_id := r.game_id
       team_id := some (sideName hv r)
       person_id := some p
       appearance_type_id := (slotAt hv num r).def_pos.map
         (fun d => "D" ++ toString d) } : PARow) ∈ templateRows hv num log
    ∧ ((slotAt hv num r).def_pos = some 10 →
        (slotAt hv num r).def_pos.map (fun d => "D" ++ toString d)
            = some "D10"
        ∧ some "D10" ∈ atCatalogIds)
    ∧ ((slotAt hv num r).def_pos = none →
        (slotAt hv num r).def_pos.map (fun d => "D" ++ toString d) = none
        ∧ fkHolds atCatalogIds none = true)
    ∧ ((slotAt hv num r).def_pos = some 0 →
        (slotAt hv num r).def_pos.map (fun d => "D" ++ toString d)
            = some "D0"
        ∧ some "D0" ∉ atCatalogIds
        ∧ ∀ t, runStmt (paFkOk ps ts gs atCatalogIds) t
            (templateRows hv num log) = (t, false)) := by
  have hmem : ({ game_id := r.game_id
                 team_id := some (sideName hv r)
                 person_id := some p
                 appearance_type_id := (slotAt hv num r).def_pos.map
                  (fun d => "D" ++ toString d) } : PARow)
      ∈ templateRows hv num log := by
    unfold templateRows sqlUnion
    rw [List.mem_dedup, List.mem_append]
    right
    rw [List.mem_filterMap]
    exact ⟨r, hr, by rw [hp]; rfl⟩
  refine ⟨hmem, ?_, ?_, ?_⟩
  · intro h
    rw [h]
    exact ⟨rfl, by decide⟩
  · intro h
    rw [h]
    exact ⟨rfl, rfl⟩
  · intro h0
    have htag : (slotAt hv num r).def_pos.map (fun d => "D" ++ toString d)
        = some "D0" := by rw [h0]; rfl
    refine ⟨htag, by decide, ?_⟩
    intro t
    have hfk : paFkOk ps ts gs atCatalogIds
        ({ game_id := r.game_id
           team_id := some (sideName hv r)
           person_id := some p
           appearance_type_id := (slotAt hv num r).def_pos.map
             (fun d => "D" ++ toString d) } : PARow) = false := by
      unfold paFkOk
      dsimp only
      rw [htag]
      rw [show fkHolds atCatalogIds (some "D0") = false from by decide]
      rw [Bool.and_false]
    have hall : (templateRows hv num log).all
        (paFkOk ps ts gs atCatalogIds) = false := by
      apply Bool.eq_false_iff.2
      intro hall
      have hone := List.all_eq_true.1 hall _ hmem
      rw [hfk] at hone
      cases hone
    rw [runStmt, if_neg (by rw [hall]; exact Bool.false_ne_true)]

/-- Witness for c1_amended: the concrete position-code-0 row: its first
home slot computes the tag "D0", outside the catalog, and the template
statement aborts. -/
theorem c1_amended_witness :
    (slotAt Side.h 1 posZeroRow).pid = some "p001"
    ∧ (slotAt Side.h 1 posZeroRow).def_pos = some 0
    ∧ (({ game_id := posZeroRow.game_id
          team_id := some (sideName Side.h posZeroRow)
          person_id := some "p001"
          appearance_type_id := (slotAt Side.h 1 posZeroRow).def_pos.map
           (fun d => "D" ++ toString d) } : PARow)
        ∈ templateRows Side.h 1 [posZeroRow]
      ∧ ((slotAt Side.h 1 posZeroRow).def_pos = some 10 →
          (slotAt Side.h 1 posZeroRow).def_pos.map
              (fun d => "D" ++ toString d) = some "D10"
          ∧ some "D10" ∈ atCatalogIds)
      ∧ ((slotAt Side.h 1 posZeroRow).def_pos = none →
          (slotAt Side.h 1 posZeroRow).def_pos.map
              (fun d => "D" ++ toString d) = none
          ∧ fkHolds atCatalogIds none = true)
      ∧ ((slotAt Side.h 1 posZeroRow).def_pos = some 0 →
          (slotAt Side.h 1 posZeroRow).def_pos.map
              (fun d => "D" ++ toString d) = some "D0"
          ∧ some "D0" ∉ atCatalogIds
          ∧ ∀ t, runStmt (paFkOk samplePersonKeys sampleTeamKeys
                sampleGameKeys atCatalogIds) t
              (templateRows Side.h 1 [posZeroRow]) = (t, false))) :=
  ⟨by decide, by decide,
   c1_amended Side.h 1 [posZeroRow] posZeroRow "p001"
     samplePersonKeys sampleTeamKeys sampleGameKeys
     (List.mem_singleton.2 rfl) (by decide)⟩

/-- c4 counterexample: when the same player id appears in two batting
slots of the same side with the same defensive position code, the two
template statements each persist the identical
(person, team, game, appearance_type) tuple — the final table holds it
twice (under two distinct surrogate ids): no insert-time uniqueness check
exists. -/
theorem c4_counterexample :
    (finalPA [dupSlotRow]).countP
      (fun t => decide (t = ({ game_id := some "G1"
                               team_id := some "HOM"
                               person_id := some "pp"
                               appearance_type_id := some "D3" } : PARow)))
      = 2 := by
  decide

/-- c4 amended: duplicate (person, team, game, appearance_type) tuples
are eliminated only within each single INSERT statement, by the set
semantics of its UNION — the result set of statement c2 and of each of
the eighteen template statements is duplicate-free — but nothing
deduplicates across statements, and the surrogate primary key admits
persisting the same tuple twice. -/
theorem c4_amended (log : List GameLogRow) (hv : Side) (num : Nat) :
    (c2Rows log).Nodup ∧ (templateRows hv num log).Nodup :=
  ⟨List.nodup_dedup _, List.nodup_dedup _⟩

/-- c5: For every game_log row the derived game_id is the concatenation
of date, home-team id and game-number-in-day; in particular a row with
date 18710504, home team FW1, game number 0 yields game_id 18710504FW10,
and after migration the game table holds exactly one row with that
game_id. -/
theorem c5_game_id (raw : RawInputs) :
    updatedLog raw = raw.gameLog.map (fun r =>
      { r with game_id := some (toString r.date ++ r.h_name ++ toString r.number_of_game) })
    ∧ ∀ r ∈ raw.gameLog, r.date = 18710504 → r.h_name = "FW1" →
        r.number_of_game = 0 →
        some (toString r.date ++ r.h_name ++ toString r.number_of_game)
            = some "18710504FW10"
        ∧ (orEmpty (migrate raw emptyState).game).countP
            (fun g => decide (g.game_id = some "18710504FW10")) = 1 := by
  have heq : updatedLog raw = raw.gameLog.map (fun r =>
      { r with game_id := some (toString r.date ++ r.h_name ++ toString r.number_of_game) }) := by
    unfold updatedLog updateGameId
    rw [List.map_map]
    apply List.map_congr_left
    intro r _
    simp [updateRow]
  refine ⟨heq, ?_⟩
  intro r hr h1 h2 h3
  have hid : some (toString r.date ++ r.h_name ++ toString r.number_of_game)
      = some "18710504FW10" := by
    rw [h1, h2, h3]
    decide
  refine ⟨hid, ?_⟩
  have hk : (some "18710504FW10" : Option String)
      ∈ ((updatedLog raw).map mkGameRow).map (·.game_id) := by
    rw [heq, List.map_map, List.map_map]
    exact List.mem_map.2 ⟨r, hr, hid⟩
  have hstate : orEmpty (migrate raw emptyState).game
      = insertOrIgnore (fun g : GameRow => g.game_id) []
          ((updatedLog raw).map mkGameRow) := by
    rw [migrate_def]
    rfl
  rw [hstate]
  exact countP_key_eq_one (fun g : GameRow => g.game_id) _ _
    (nodup_map_insertOrIgnore _ _ _ (by simp))
    ((mem_map_insertOrIgnore _ _ _ _).2 (Or.inr hk))

/-- Witness for c5_game_id: the concrete raw input with the single fact
row (18710504, FW1, 0). -/
theorem c5_witness :
    fw1Row ∈ gameIdSampleRaw.gameLog
    ∧ (some (toString fw1Row.date ++ fw1Row.h_name
          ++ toString fw1Row.number_of_game) = some "18710504FW10"
      ∧ (orEmpty (migrate gameIdSampleRaw emptyState).game).countP
          (fun g => decide (g.game_id = some "18710504FW10")) = 1) :=
  ⟨List.mem_singleton.2 rfl,
   (c5_game_id gameIdSampleRaw).2 fw1Row (List.mem_singleton.2 rfl) rfl rfl rfl⟩

/-- c6: For every game_log row with a non-null winning_pitcher_id,
saving_pitcher_id or winning_rbi_batter_id, statement c2 emits a
person_appearance row whose team_id is the home team when
h_score > v_score and the visiting team otherwise; for a non-null
losing_pitcher_id the team_id is the home team when h_score < v_score
and the visiting team otherwise; and an award row is emitted only for a
row whose corresponding award id is non-null. -/
theorem c6_award_team (log : List GameLogRow) :
    (∀ r ∈ log, ∀ p, r.winning_pitcher_id = some p →
      ({ game_id := r.game_id
         team_id := some (if sqlGt r.h_stats.score r.v_stats.score
           then r.h_name else r.v_name)
         person_id := some p
         appearance_type_id := some "AWP" } : PARow) ∈ c2Rows log)
    ∧ (∀ r ∈ log, ∀ p, r.losing_pitcher_id = some p →
      ({ game_id := r.game_id
         team_id := some (if sqlLt r.h_stats.score r.v_stats.score
           then r.h_name else r.v_name)
         person_id := some p
         appearance_type_id := some "ALP" } : PARow) ∈ c2Rows log)
    ∧ (∀ r ∈ log, ∀ p, r.saving_pitcher_id = some p →
      ({ game_id := r.game_id
         team_id := some (if sqlGt r.h_stats.score r.v_stats.score
           then r.h_name else r.v_name)
         person_id := some p
         appearance_type_id := some "ASP" } : PARow) ∈ c2Rows log)
    ∧ (∀ r ∈ log, ∀ p, r.winning_rbi_batter_id = some p →
      ({ game_id := r.game_id
         team_id := some (if sqlGt r.h_stats.score r.v_stats.score
           then r.h_name else r.v_name)
         person_id := some p
         appearance_type_id := some "AWB" } : PARow) ∈ c2Rows log)
    ∧ (∀ t ∈ c2Rows log,
        (t.appearance_type_id = some "AWP" →
          ∃ r ∈ log, r.winning_pitcher_id = t.person_id
            ∧ t.person_id ≠ none ∧ t.game_id = r.game_id
            ∧ t.team_id = some (if sqlGt r.h_stats.score r.v_stats.score
                then r.h_name else r.v_name))
        ∧ (t.appearance_type_id = some "ALP" →
          ∃ r ∈ log, r.losing_pitcher_id = t.person_id
            ∧ t.person_id ≠ none ∧ t.game_id = r.game_id
            ∧ t.team_id = some (if sqlLt r.h_stats.score r.v_stats.score
                then r.h_name else r.v_name))
        ∧ (t.appearance_type_id = some "ASP" →
          ∃ r ∈ log, r.saving_pitcher_id = t.person_id
            ∧ t.person_id ≠ none ∧ t.game_id = r.game_id
            ∧ t.team_id = some (if sqlGt r.h_stats.score r.v_stats.score
                then r.h_name else r.v_name))
        ∧ (t.appearance_type_id = some "AWB" →
          ∃ r ∈ log, r.winning_rbi_batter_id = t.person_id
            ∧ t.person_id ≠ none ∧ t.game_id = r.game_id
            ∧ t.team_id = some (if sqlGt r.h_stats.score r.v_stats.score
                then r.h_name else r.v_name))) := by
  refine ⟨?_, ?_, ?_, ?_, ?_⟩
  · intro r hr p hp
    unfold c2Rows sqlUnion
    rw [List.mem_dedup]
    simp only [List.mem_append, or_assoc]
    refine Or.inr (Or.inr (Or.inr (Or.inr (Or.inr (Or.inr (Or.inr (Or.inr
      (Or.inl ?_))))))))
    unfold teamSel
    rw [List.mem_filterMap]
    exact ⟨r, hr, by simp only [hp, Option.map_some]; rfl⟩
  · intro r hr p hp
    unfold c2Rows sqlUnion
    rw [List.mem_dedup]
    simp only [List.mem_append, or_assoc]
    refine Or.inr (Or.inr (Or.inr (Or.inr (Or.inr (Or.inr (Or.inr (Or.inr
      (Or.inr (Or.inl ?_)))))))))
    unfold teamSel
    rw [List.mem_filterMap]
    exact ⟨r, hr, by simp only [hp, Option.map_some]; rfl⟩
  · intro r hr p hp
    unfold c2Rows sqlUnion
    rw [List.mem_dedup]
    simp only [List.mem_append, or_assoc]
    refine Or.inr (Or.inr (Or.inr (Or.inr (Or.inr (Or.inr (Or.inr (Or.inr
      (Or.inr (Or.inr (Or.inl ?_))))))))))
    unfold teamSel
    rw [List.mem_filterMap]
    exact ⟨r, hr, by simp only [hp, Option.map_some]; rfl⟩
  · intro r hr p hp
    unfold c2Rows sqlUnion
    rw [List.mem_dedup]
    simp only [List.mem_append, or_assoc]
    refine Or.inr (Or.inr (Or.inr (Or.inr (Or.inr (Or.inr (Or.inr (Or.inr
      (Or.inr (Or.inr (Or.inr (Or.inl ?_)))))))))))
    unfold teamSel
    rw [List.mem_filterMap]
    exact ⟨r, hr, by simp only [hp, Option.map_some]; rfl⟩
  · intro t ht
    unfold c2Rows sqlUnion at ht
    rw [List.mem_dedup] at ht
    simp only [List.mem_append, or_assoc, umpSel, teamSel,
      List.mem_filterMap, Option.map_eq_some'] at ht
    rcases ht with ⟨r, hr, p, hp, rfl⟩ | ⟨r, hr, p, hp, rfl⟩ |
      ⟨r, hr, p, hp, rfl⟩ | ⟨r, hr, p, hp, rfl⟩ | ⟨r, hr, p, hp, rfl⟩ |
      ⟨r, hr, p, hp, rfl⟩ | ⟨r, hr, p, hp, rfl⟩ | ⟨r, hr, p, hp, rfl⟩ |
      ⟨r, hr, p, hp, rfl⟩ | ⟨r, hr, p, hp, rfl⟩ | ⟨r, hr, p, hp, rfl⟩ |
      ⟨r, hr, p, hp, rfl⟩ | ⟨r, hr, p, hp, rfl⟩ | ⟨r, hr, p, hp, rfl⟩ <;>
    · refine ⟨?_, ?_, ?_, ?_⟩ <;> intro htype <;>
        first
          | exact absurd (Option.some.inj htype) (by decide)
          | exact ⟨r, hr, hp, by simp, rfl, rfl⟩

/-- Witness for c6_award_team: the concrete row with all four award ids
set and score 5:3 — e.g. the winning-pitcher row goes to the home team
and the losing-pitcher row to the visitors. -/
theorem c6_witness :
    awardSampleRow ∈ [awardSampleRow]
    ∧ awardSampleRow.winning_pitcher_id = some "wp01"
    ∧ ({ game_id := awardSampleRow.game_id
         team_id := some (if sqlGt awardSampleRow.h_stats.score
             awardSampleRow.v_stats.score
           then awardSampleRow.h_name else awardSampleRow.v_name)
         person_id := some "wp01"
         appearance_type_id := some "AWP" } : PARow)
        ∈ c2Rows [awardSampleRow] :=
  ⟨List.mem_singleton.2 rfl, rfl,
   (c6_award_team [awardSampleRow]).1 awardSampleRow
     (List.mem_singleton.2 rfl) "wp01" rfl⟩

/-- c7 counterexample: three enforcement-layer runs that each complete
and each refute one conjunct of the claim.  With a NULL home league the
persisted team_appearance row's league_id matches no league row (no
foreign key is declared on league_id).  With a fact row whose home and
visiting team are the same team, the compound key (team_id, game_id)
collides and OR IGNORE keeps a single row for that game, not two.  With
two fact rows deriving the same game_id against different visitors, the
game gets three rows. -/
theorem c7_counterexample :
    (okB (migrateE nullLeagueRaw emptyState) = true
      ∧ ∃ t ∈ orEmpty (stateOf (migrateE nullLeagueRaw
            emptyState)).teamAppearance,
          t.league_id = none
          ∧ ∀ l ∈ orEmpty (stateOf (migrateE nullLeagueRaw
                emptyState)).league,
              some l.league_id ≠ t.league_id)
    ∧ (okB (migrateE sameTeamRaw emptyState) = true
      ∧ (orEmpty (stateOf (migrateE sameTeamRaw
            emptyState)).teamAppearance).countP
          (fun t => decide (t.game_id = some "0HOM0")) = 1)
    ∧ (okB (migrateE dupGameRaw emptyState) = true
      ∧ (orEmpty (stateOf (migrateE dupGameRaw
            emptyState)).teamAppearance).countP
          (fun t => decide (t.game_id = some "0HOM0")) = 3) := by
  decide

/-- c7 amended: provided the log rows carry pairwise-distinct game_ids,
each row's home and visiting team ids differ (both hypotheses are
load-bearing — the counterexample's same-team and duplicate-game runs
violate exactly them and break the two-row shape), and every referenced
team and game key resolves, the foreign-key-enforced insert succeeds and
the freshly populated team_appearance table holds, for every log row,
exactly two rows with its game_id — exactly one with home = 1 and
exactly one with home = 0.  (The league_id column is carried over
verbatim, may be NULL, and is not constrained to reference a league
row.) -/
theorem c7_amended (log : List GameLogRow)
    (teamKeys gameKeys : List (Option String))
    (h1 : (log.map (fun r => r.game_id)).Nodup)
    (h2 : ∀ r ∈ log, r.h_name ≠ r.v_name)
    (h3 : ∀ r ∈ log, some r.h_name ∈ teamKeys ∧ some r.v_name ∈ teamKeys
        ∧ fkHolds gameKeys r.game_id = true) :
    insertOrIgnoreE taKey (taFkOk teamKeys gameKeys) [] (taSource log)
        = Except.ok (insertOrIgnore taKey [] (taSource log))
    ∧ ∀ r ∈ log,
      ((insertOrIgnore taKey [] (taSource log)).countP
          (fun t => decide (t.game_id = r.game_id)) = 2)
      ∧ ((insertOrIgnore taKey [] (taSource log)).countP
          (fun t => decide (t.game_id = r.game_id ∧ t.home = 1)) = 1)
      ∧ ((insertOrIgnore taKey [] (taSource log)).countP
          (fun t => decide (t.game_id = r.game_id ∧ t.home = 0)) = 1) := by
  have hpass : ∀ x ∈ taSource log, taFkOk teamKeys gameKeys x = true := by
    intro x hx
    simp only [taSource, sqlUnion, List.mem_dedup, List.mem_append,
      List.mem_map] at hx
    rcases hx with ⟨a, ha, rfl⟩ | ⟨a, ha, rfl⟩
    · unfold taFkOk
      rw [Bool.and_eq_true]
      exact ⟨decide_eq_true (h3 a ha).1, (h3 a ha).2.2⟩
    · unfold taFkOk
      rw [Bool.and_eq_true]
      exact ⟨decide_eq_true (h3 a ha).2.1, (h3 a ha).2.2⟩
  refine ⟨insertOrIgnoreE_ok _ _ _ _ hpass, ?_⟩
  have hlog : log.Nodup := List.Nodup.of_map _ h1
  have hinj : ∀ x ∈ log, ∀ y ∈ log, x.game_id = y.game_id → x = y :=
    List.inj_on_of_nodup_map h1
  have hnh : (log.map mkHomeTA).Nodup :=
    List.Nodup.of_map TARow.game_id (by rw [List.map_map]; exact h1)
  have hnv : (log.map mkVisTA).Nodup :=
    List.Nodup.of_map TARow.game_id (by rw [List.map_map]; exact h1)
  have hdisj : (log.map mkHomeTA).Disjoint (log.map mkVisTA) := by
    intro x hx hv
    rcases List.mem_map.1 hx with ⟨a, _, rfl⟩
    rcases List.mem_map.1 hv with ⟨b, _, hb⟩
    have hhome := congrArg TARow.home hb
    simp [mkHomeTA, mkVisTA] at hhome
  have hsrc : taSource log = log.map mkHomeTA ++ log.map mkVisTA := by
    unfold taSource sqlUnion
    exact List.dedup_eq_self.2 (List.Nodup.append hnh hnv hdisj)
  have hkh : ((log.map mkHomeTA).map taKey).Nodup := by
    rw [List.map_map]
    exact hlog.map_on fun x hx y hy hxy =>
      hinj x hx y hy (congrArg Prod.snd hxy)
  have hkv : ((log.map mkVisTA).map taKey).Nodup := by
    rw [List.map_map]
    exact hlog.map_on fun x hx y hy hxy =>
      hinj x hx y hy (congrArg Prod.snd hxy)
  have hkd : ((log.map mkHomeTA).map taKey).Disjoint
      ((log.map mkVisTA).map taKey) := by
    intro K hKh hKv
    rw [List.map_map] at hKh hKv
    rcases List.mem_map.1 hKh with ⟨a, ha, hKa⟩
    rcases List.mem_map.1 hKv with ⟨b, hb, hKb⟩
    have hgid : a.game_id = b.game_id :=
      congrArg Prod.snd (hKa.trans hKb.symm)
    have hab : a = b := hinj a ha b hb hgid
    subst hab
    exact h2 a ha (congrArg Prod.fst (hKa.trans hKb.symm))
  have hknodup : ((taSource log).map taKey).Nodup := by
    rw [hsrc, List.map_append]
    exact List.Nodup.append hkh hkv hkd
  have htable : insertOrIgnore taKey [] (taSource log) = taSource log := by
    have h := insertOrIgnore_append taKey [] (taSource log) hknodup
      (by simp)
    simpa using h
  intro r hr
  rw [htable, hsrc]
  refine ⟨?_, ?_, ?_⟩
  · rw [List.countP_append, List.countP_map, List.countP_map]
    have hh : log.countP
        ((fun t => decide (t.game_id = r.game_id)) ∘ mkHomeTA) = 1 := by
      refine countP_eq_one_of_unique _ log r hlog hr ?_ ?_
      · intro x hx hpx
        exact hinj x hx r hr (of_decide_eq_true hpx)
      · exact decide_eq_true rfl
    have hv : log.countP
        ((fun t => decide (t.game_id = r.game_id)) ∘ mkVisTA) = 1 := by
      refine countP_eq_one_of_unique _ log r hlog hr ?_ ?_
      · intro x hx hpx
        exact hinj x hx r hr (of_decide_eq_true hpx)
      · exact decide_eq_true rfl
    rw [hh, hv]
  · rw [List.countP_append, List.countP_map, List.countP_map]
    have hh : log.countP
        ((fun t => decide (t.game_id = r.game_id ∧ t.home = 1))
          ∘ mkHomeTA) = 1 := by
      refine countP_eq_one_of_unique _ log r hlog hr ?_ ?_
      · intro x hx hpx
        exact hinj x hx r hr (of_decide_eq_true hpx).1
      · exact decide_eq_true ⟨rfl, rfl⟩
    have hv : log.countP
        ((fun t => decide (t.game_id = r.game_id ∧ t.home = 1))
          ∘ mkVisTA) = 0 := by
      rw [List.countP_eq_zero]
      intro x _ hpx
      have h0 := (of_decide_eq_true hpx).2
      simp [mkVisTA] at h0
    rw [hh, hv]
  · rw [List.countP_append, List.countP_map, List.countP_map]
    have hh : log.countP
        ((fun t => decide (t.game_id = r.game_id ∧ t.home = 0))
          ∘ mkHomeTA) = 0 := by
      rw [List.countP_eq_zero]
      intro x _ hpx
      have h0 := (of_decide_eq_true hpx).2
      simp [mkHomeTA] at h0
    have hv : log.countP
        ((fun t => decide (t.game_id = r.game_id ∧ t.home = 0))
          ∘ mkVisTA) = 1 := by
      refine countP_eq_one_of_unique _ log r hlog hr ?_ ?_
      · intro x hx hpx
        exact hinj x hx r hr (of_decide_eq_true hpx).1
      · exact decide_eq_true ⟨rfl, rfl⟩
    rw [hh, hv]

/-- Witness for c7_amended: a one-row log with distinct team ids, both
resolving in the team table: its game gets exactly one home and one
visiting team_appearance row and the enforced insert succeeds. -/
theorem c7_witness :
    (([awardSampleRow].map (fun r => r.game_id)).Nodup)
    ∧ (∀ r ∈ [awardSampleRow], r.h_name ≠ r.v_name)
    ∧ (∀ r ∈ [awardSampleRow], some r.h_name ∈ sampleTeamKeys
        ∧ some r.v_name ∈ sampleTeamKeys
        ∧ fkHolds sampleGameKeys r.game_id = true)
    ∧ (insertOrIgnoreE taKey (taFkOk sampleTeamKeys sampleGameKeys) []
          (taSource [awardSampleRow])
        = Except.ok (insertOrIgnore taKey [] (taSource [awardSampleRow]))
      ∧ ∀ r ∈ [awardSampleRow],
        ((insertOrIgnore taKey [] (taSource [awardSampleRow])).countP
            (fun t => decide (t.game_id = r.game_id)) = 2)
        ∧ ((insertOrIgnore taKey [] (taSource [awardSampleRow])).countP
            (fun t => decide (t.game_id = r.game_id ∧ t.home = 1)) = 1)
        ∧ ((insertOrIgnore taKey [] (taSource [awardSampleRow])).countP
            (fun t => decide (t.game_id = r.game_id ∧ t.home = 0)) = 1)) :=
  ⟨by decide, by decide, by decide,
   c7_amended [awardSampleRow] sampleTeamKeys sampleGameKeys
     (by decide) (by decide) (by decide)⟩

/-- c8: Every person_appearance row produced for an umpire role has a
NULL team_id, and every row produced for any non-umpire role (manager,
award, starting pitcher, offensive slot, defensive position) has a
non-null team_id: in the final table, team_id is NULL exactly on the
umpire appearance types. -/
theorem c8_umpire_team_null (log : List GameLogRow) (t : PARow)
    (ht : t ∈ finalPA log) :
    t.team_id = none ↔ t.appearance_type_id ∈ umpireTypeIds := by
  unfold finalPA at ht
  rw [List.mem_append] at ht
  rcases ht with hc | htm
  · unfold c2Rows sqlUnion at hc
    rw [List.mem_dedup] at hc
    simp only [List.mem_append, or_assoc, umpSel, teamSel,
      List.mem_filterMap, Option.map_eq_some'] at hc
    rcases hc with ⟨r, hr, p, hp, rfl⟩ | ⟨r, hr, p, hp, rfl⟩ |
      ⟨r, hr, p, hp, rfl⟩ | ⟨r, hr, p, hp, rfl⟩ | ⟨r, hr, p, hp, rfl⟩ |
      ⟨r, hr, p, hp, rfl⟩ | ⟨r, hr, p, hp, rfl⟩ | ⟨r, hr, p, hp, rfl⟩ |
      ⟨r, hr, p, hp, rfl⟩ | ⟨r, hr, p, hp, rfl⟩ | ⟨r, hr, p, hp, rfl⟩ |
      ⟨r, hr, p, hp, rfl⟩ | ⟨r, hr, p, hp, rfl⟩ | ⟨r, hr, p, hp, rfl⟩ <;>
      first
        | exact iff_of_true rfl (by dsimp only; decide)
        | exact iff_of_false (by simp) (by dsimp only; decide)
  · simp only [List.mem_flatMap, List.mem_cons, List.not_mem_nil,
      or_false] at htm
    obtain ⟨hv, _, num, _, htr⟩ := htm
    unfold templateRows sqlUnion at htr
    rw [List.mem_dedup, List.mem_append] at htr
    rcases htr with ho | hd
    · rw [List.mem_filterMap] at ho
      obtain ⟨r, hr, hfr⟩ := ho
      rw [Option.map_eq_some'] at hfr
      obtain ⟨p, hp, rfl⟩ := hfr
      exact iff_of_false (by simp) (oTag_not_umpire (toString num))
    · rw [List.mem_filterMap] at hd
      obtain ⟨r, hr, hfr⟩ := hd
      rw [Option.map_eq_some'] at hfr
      obtain ⟨p, hp, rfl⟩ := hfr
      cases hdp : (slotAt hv num r).def_pos with
      | none =>
        refine iff_of_false (by simp) fun hmem => ?_
        simp [umpireTypeIds] at hmem
      | some d =>
        refine iff_of_false (by simp) fun hmem => ?_
        exact dTag_not_umpire (toString d) (by simpa using hmem)

/-- Witness for c8_umpire_team_null: the concrete row with a home-plate
umpire and a home manager: the umpire row's team_id is NULL, iff its type
is an umpire type. -/
theorem c8_witness :
    ({ game_id := some "G1"
       team_id := none
       person_id := some "ump1"
       appearance_type_id := some "UHP" } : PARow)
        ∈ finalPA [umpireSampleRow]
    ∧ (({ game_id := some "G1"
          team_id := none
          person_id := some "ump1"
          appearance_type_id := some "UHP" } : PARow).team_id = none
        ↔ ({ game_id := some "G1"
             team_id := none
             person_id := some "ump1"
             appearance_type_id := some "UHP" } : PARow).appearance_type_id
            ∈ umpireTypeIds) :=
  ⟨by decide,
   c8_umpire_team_null [umpireSampleRow] _ (by decide)⟩

/-- c10: The game_id UPDATE assigns only rows of game_log whose game_id is
NULL: a row that already holds a non-null game_id is left with that value
and with every other column unchanged, and re-executing the whole UPDATE
statement after it has run once changes nothing. -/
theorem c10_update_frame :
    (∀ (r : GameLogRow) (g : String),
      updateRow { r with game_id := some g } = { r with game_id := some g })
    ∧ ∀ rows : List GameLogRow, updateGameId (updateGameId rows) = updateGameId rows := by
  constructor
  · intro r g
    simp [updateRow]
  · intro rows
    unfold updateGameId
    rw [List.map_map]
    apply List.map_congr_left
    intro r _
    simp only [Function.comp_apply, updateRow]
    by_cases h : r.game_id = none
    · simp [h]
    · simp [h]
